import Mathlib

/-!
# Verification of the TechnitiumDNS DHCP device-tracking integration

Shallow embedding of the core pure logic of the
`custom_components/technitiumdns` integration:

* `utils.py` — MAC normalization, IP-range parsing and IP filtering;
* `activity_analyzer.py` — the smart activity analyzer and batch analysis;
* `device_tracker.py` — lease processing and the last-seen / staleness pass
  of the DHCP coordinator;
* `api.py` — the dynamic DNS-log fetch limit;
* `sensor.py` — the dynamic sensor manager's device-set reconciliation.

Modelling conventions:

* Python strings are Lean `String`s; `str.upper` / `str.lower` are modelled
  as per-character ASCII case mapping (`Char.toUpper` / `Char.toLower`),
  which matches the repository's inputs (MAC addresses, domains, protocol
  names are ASCII).
* Timestamps are modelled at the parse boundary: a log entry carries
  `Option ℚ` (seconds); `none` stands for a missing or unparseable
  timestamp string, which the Python code drops at each use site.
* Python floats are modelled as exact rationals; `round(x, n)` is modelled
  as exact decimal rounding half-to-even (`pyRound`).
* `math`-style square root (Python's `** 0.5`) has no exact rational
  counterpart; the analyzer is parameterised by the square-root function
  `sqrtFn` it uses, and every property proved here holds for all of them.
-/

namespace Technitium

/-! ## Python string primitives -/

/-- Python `str.upper()` restricted to ASCII: uppercase every character. -/
def pyUpper (s : String) : String := ⟨s.data.map Char.toUpper⟩

/-- Python `str.lower()` restricted to ASCII: lowercase every character. -/
def pyLower (s : String) : String := ⟨s.data.map Char.toLower⟩

/-- `p` is a leading segment of `l` (used to model Python `in` on strings). -/
def startsWithList : List Char → List Char → Bool
  | [], _ => true
  | _ :: _, [] => false
  | p :: ps, c :: cs => p == c && startsWithList ps cs

/-- Python `needle in hay` for strings, on the underlying character lists. -/
def hasSubList (needle : List Char) : List Char → Bool
  | [] => startsWithList needle []
  | c :: cs => startsWithList needle (c :: cs) || hasSubList needle cs

/-- Python `needle in hay` for strings. -/
def strHasSub (hay needle : String) : Bool := hasSubList needle.data hay.data

/-- Python `s.split(c)` (split on every occurrence of a one-character
separator; `""` splits to `[""]`). -/
def splitOnChar (sep : Char) : List Char → List (List Char)
  | [] => [[]]
  | c :: cs =>
    match splitOnChar sep cs with
    | [] => [[c]]  -- unreachable: splitOnChar never returns []
    | h :: t => if c == sep then [] :: h :: t else (c :: h) :: t

/-- Python `s.strip()` restricted to ASCII whitespace. -/
def stripList (l : List Char) : List Char :=
  ((l.dropWhile Char.isWhitespace).reverse.dropWhile Char.isWhitespace).reverse

/-! ## `utils.normalize_mac_address` -/

/-- One character of Python `str.replace('-', ':')`. -/
def dashToColon (c : Char) : Char := if c == '-' then ':' else c

/-- `':'.join([up[i:i+2] for i in range(0, 12, 2)])` on a 12-character
string, written out elementwise (the caller guards `length = 12`; any
other shape is returned unchanged, and is never reached). -/
def join12 (l : List Char) : String :=
  match l with
  | [a, b, c, d, e, f, g, h, i, j, k, m] =>
    ⟨[a, b, ':', c, d, ':', e, f, ':', g, h, ':', i, j, ':', k, m]⟩
  | _ => ⟨l⟩

/-- `utils.normalize_mac_address`: uppercase; 12 characters → insert colons
every two; 17 characters → replace dashes by colons; otherwise unchanged. -/
def normalize_mac_address (mac : String) : String :=
  if mac = "" then ""
  else
    let up := pyUpper mac
    if up.data.length = 12 then join12 up.data
    else if up.data.length = 17 then ⟨up.data.map dashToColon⟩
    else up

/-! ## `utils.parse_ip_ranges` / `utils.should_track_ip` -/

/-- Decimal value of a digit list (`int(s)` on digits). -/
def digitsVal (l : List Char) : Nat :=
  l.foldl (fun a c => a * 10 + (c.toNat - 48)) 0

/-- One dotted-quad octet, as `ipaddress.IPv4Address` accepts it: 1–3
digits, no leading zero, value ≤ 255. -/
def parseOctet (l : List Char) : Option Nat :=
  if l ≠ [] ∧ l.length ≤ 3 ∧ l.all Char.isDigit ∧
      ¬(l.length > 1 ∧ l.headD '0' = '0') ∧ digitsVal l ≤ 255 then
    some (digitsVal l)
  else none

/-- `ipaddress.IPv4Address(s)`: the 32-bit value, or `none` when invalid. -/
def parseIPv4 (s : String) : Option Nat :=
  match (splitOnChar '.' s.data).mapM parseOctet with
  | some [a, b, c, d] => some (((a * 256 + b) * 256 + c) * 256 + d)
  | _ => none

/-- `str(IPv4Address(n))`: canonical dotted-decimal form. -/
def ipToString (n : Nat) : String :=
  toString (n / 16777216 % 256) ++ "." ++ toString (n / 65536 % 256) ++ "." ++
    toString (n / 256 % 256) ++ "." ++ toString (n % 256)

/-- The numeric prefix of a CIDR entry: digits only, value ≤ 32
(`IPv4Network`'s prefix parsing; dotted-netmask prefixes are not used by
this integration and are not modelled). -/
def parsePrefixLen (l : List Char) : Option Nat :=
  if l ≠ [] ∧ l.all Char.isDigit ∧ digitsVal l ≤ 32 then some (digitsVal l)
  else none

/-- `IPv4Network(...).hosts()` (Python ≥ 3.8): all addresses except
network and broadcast; for `/31` both addresses; for `/32` the address. -/
def cidrHosts (p net : Nat) : List Nat :=
  if p = 32 then [net]
  else if p = 31 then [net, net + 1]
  else (List.range (2 ^ (32 - p) - 2)).map (fun k => net + 1 + k)

/-- All addresses of `start-end` inclusive (the `while current <= end_addr`
loop). -/
def ipRangeList (s e : Nat) : List Nat :=
  (List.range (e + 1 - s)).map (fun k => s + k)

/-- `entry.split('-', 1)`: the part before the first dash and the part
after it (the caller guarantees a dash is present). -/
def splitFirstDash (l : List Char) : List Char × List Char :=
  ((l.takeWhile (fun c => c ≠ '-')), (l.dropWhile (fun c => c ≠ '-')).drop 1)

/-- One iteration of the `parse_ip_ranges` loop: the IP strings contributed
by a single (already stripped) entry; malformed entries contribute
nothing (fail closed). -/
def parseRangeEntry (entry : List Char) : List String :=
  if entry = [] then []
  else if entry.contains '-' ∧ ¬entry.contains '/' then
    let (s0, e0) := splitFirstDash entry
    match parseIPv4 ⟨stripList s0⟩, parseIPv4 ⟨stripList e0⟩ with
    | some s, some e => if s > e then [] else (ipRangeList s e).map ipToString
    | _, _ => []
  else if entry.contains '/' then
    match splitOnChar '/' entry with
    | [a, p] =>
      match parseIPv4 ⟨a⟩, parsePrefixLen p with
      | some v, some pl =>
        let net := v - v % 2 ^ (32 - pl)
        ((cidrHosts pl net).map ipToString) ++ (if pl = 32 then [ipToString net] else [])
      | _, _ => []
    | _ => []
  else
    match parseIPv4 ⟨entry⟩ with
    | some v => [ipToString v]
    | none => []

/-- `utils.parse_ip_ranges`: split on the first delimiter found among
`,`, `;`, newline (in that priority order), strip each piece, and collect
the addresses of every well-formed entry.  The Python function returns a
`set`; membership is what matters, so the set is modelled as the list of
collected addresses. -/
def parse_ip_ranges (ip_ranges_str : String) : List String :=
  if ip_ranges_str.data.all Char.isWhitespace then []
  else
    let l := ip_ranges_str.data
    let ranges :=
      if l.contains ',' then (splitOnChar ',' l).map stripList
      else if l.contains ';' then (splitOnChar ';' l).map stripList
      else if l.contains '\n' then (splitOnChar '\n' l).map stripList
      else [stripList l]
    ranges.flatMap parseRangeEntry

/-- `utils.should_track_ip`: `disabled` or an empty ranges string tracks
everything; an invalid IP is never tracked; `include` tracks exactly the
configured set, `exclude` its complement; unknown modes track. -/
def should_track_ip (ip_address filter_mode ip_ranges_str : String) : Bool :=
  if filter_mode = "disabled" ∨ ip_ranges_str = "" then true
  else
    match parseIPv4 ip_address with
    | none => false
    | some _ =>
      let configured_ips := parse_ip_ranges ip_ranges_str
      if filter_mode = "include" then configured_ips.contains ip_address
      else if filter_mode = "exclude" then !configured_ips.contains ip_address
      else true

/-! ## Constants from `const.py` -/

/-- `DEFAULT_ACTIVITY_SCORE_THRESHOLD` (const.py). -/
def DEFAULT_ACTIVITY_SCORE_THRESHOLD : ℚ := 25

/-- `DEFAULT_ACTIVITY_ANALYSIS_WINDOW` in minutes (const.py). -/
def DEFAULT_ACTIVITY_ANALYSIS_WINDOW : ℚ := 120

/-- `DEFAULT_DHCP_STALE_THRESHOLD` in minutes (const.py). -/
def DEFAULT_DHCP_STALE_THRESHOLD : ℚ := 60

/-- `PROTOCOL_WEIGHTS.get(protocol, 0.5)` (const.py). -/
def protocolWeight (p : String) : ℚ :=
  if p = "UDP" then 0.3
  else if p = "TCP" then 1.0
  else if p = "HTTPS" then 1.2
  else if p = "HTTP" then 0.8
  else 0.5

/-- `QUERY_TYPE_WEIGHTS.get(query_type, 0.5)` (const.py). -/
def queryTypeWeight (t : String) : ℚ :=
  if t = "A" then 1.0
  else if t = "AAAA" then 1.0
  else if t = "CNAME" then 0.8
  else if t = "MX" then 0.6
  else if t = "TXT" then 0.5
  else if t = "SRV" then 0.4
  else if t = "PTR" then 0.3
  else if t = "SOA" then 0.2
  else if t = "NS" then 0.2
  else 0.5

/-- `BACKGROUND_DOMAINS` (const.py) — a Python set literal, modelled as the
list of its members (the duplicate `'facebook.com/tr'` of the literal is
kept once; only substring membership is ever used). -/
def BACKGROUND_DOMAINS : List String :=
  [ "time.", "ntp.", "pool.ntp.org", "time.windows.com", "time.apple.com",
    "time.nist.gov", "time.cloudflare.com", "ntp.ubuntu.com",
    "update.", "updates.", "download.", "windowsupdate.com", "apple.com/updates",
    "software-update", "swupdate", "autoupdate", "chrome-devtools-frontend",
    "packages.", "repo.", "repository.", "dl.google.com", "releases.ubuntu.com",
    "telemetry.", "analytics.", "metrics.", "stats.", "tracking.", "beacon.",
    "google-analytics.com", "googletagmanager.com", "facebook.com/tr",
    "amplitude.com", "mixpanel.com", "segment.", "hotjar.com", "fullstory.com",
    "newrelic.com", "datadog.com", "sentry.io", "bugsnag.com", "crashlytics.",
    "flurry.com", "countly.", "umeng.com", "adjust.com", "appsflyer.com",
    "branch.io", "kochava.com", "singular.net", "tune.com", "apsalar.com",
    "ocsp.", "crl.", "certificate.", "ssl.", "security.", "pki.",
    "certs.", "ca-", "revocation.", "validation.",
    "amazonaws.com", "googleapi.", "icloud.com", "live.com", "outlook.com",
    "cloudfront.net", "akamai.", "fastly.com", "cloudflare.com",
    "azureedge.net", "msecnd.net", "edge.", "cdn.", "static.",
    "root-servers.net", "gtld-servers.net", "dns.", "resolver.",
    "connectivity-check.", "captive.apple.com", "msftconnecttest.com",
    "connectivitycheck.", "generate_204", "clients1.google.com",
    "wpad.", "isatap.", "teredo.", "ipv6.", "localhost.",
    "safebrowsing.", "phishing-protection.", "malware-check.",
    "crash.", "crashdump.", "watson.", "error-report.", "dump.",
    "feedback.", "report.", "diagnostic.",
    "location.", "geoip.", "geolocation.", "whereami.", "ipinfo.",
    "maxmind.com", "geonames.org", "ip-api.com",
    "push.", "notification.", "fcm.googleapis.com", "apple-push.",
    "pusher.", "pushwoosh.", "onesignal.com", "urbanairship.com",
    "sync.", "backup.", "cloud-sync.", "dropbox-sync.", "onedrive.",
    "googlesync.", "icloud-sync.", "account-sync.",
    "samsung.", "lg.com", "sony.", "roku.", "netflix.", "hulu.",
    "amazonvideo.", "smart-tv.", "iot.", "alexa.", "googlehome.",
    "steam.", "origin.", "uplay.", "battlenet.", "epicgames.",
    "xbox.", "playstation.", "nintendo.", "gamepass.",
    "safebrowsing.googleapis.com", "chrome-variations.",
    "firefox-settings.", "edge-enterprise.", "browser-update.",
    "extension-update.", "addon-update.",
    "doubleclick.", "googleadservices.", "googlesyndication.",
    "twitter.com/i/", "linkedin.com/px/",
    "pinterest.com/ct/", "bing.com/th", "yahoo.com/p",
    "monitor.", "health-check.", "status.", "ping.", "heartbeat.",
    "uptime.", "availability.", "probe.",
    "config.", "settings.", "preferences.", "profile-sync.",
    "user-data.", "account-info.",
    "license.", "activation.", "verify.", "validate.", "auth.",
    "activation-server.", "product-key.",
    "weather.", "forecast.", "openweathermap.", "accuweather.",
    "weather-api.", "meteo.",
    "feed.", "rss.", "news-feed.", "content-update.",
    "headlines.", "breaking-news.",
    "vpn-detect.", "proxy-check.", "tor-check.", "anonymizer-detect.",
    "version.", "compatibility.", "support-check.", "feature-flag.",
    "experiment.", "a-b-test." ]

/-! ## DNS log entries and Python rounding -/

/-- One DNS query log entry as the analyzer reads it.  `timestamp` is the
parse result of the entry's ISO timestamp string, in seconds; `none`
stands for a missing or unparseable timestamp (dropped at each use site,
like the Python `except` clauses). -/
structure LogEntry where
  clientIpAddress : Option String
  timestamp : Option ℚ
  protocol : Option String
  question_name : Option String
  question_type : Option String
deriving DecidableEq, Repr

/-- Python `round` to an integer: round half to even. -/
def pyRoundInt (q : ℚ) : ℤ :=
  let f := ⌊q⌋
  let r := q - f
  if r < 1 / 2 then f
  else if 1 / 2 < r then f + 1
  else if f % 2 = 0 then f else f + 1

/-- Python `round(q, ndigits)`: decimal rounding half to even (exact; the
binary-float representation error of CPython floats is out of scope). -/
def pyRound (ndigits : ℕ) (q : ℚ) : ℚ :=
  ((pyRoundInt (q * (10 : ℚ) ^ ndigits) : ℤ) : ℚ) / (10 : ℚ) ^ ndigits

/-! ## `SmartActivityAnalyzer` -/

/-- `_filter_device_logs`: entries of this client inside the analysis
window (`now` is the cycle's `datetime.now()`, in seconds; the cutoff is
`now` minus the window in minutes). -/
def filter_device_logs (analysis_window_minutes now : ℚ)
    (dns_logs : List LogEntry) (ip_address : String) : List LogEntry :=
  dns_logs.filter fun log =>
    log.clientIpAddress == some ip_address &&
      match log.timestamp with
      | some t => decide (now - analysis_window_minutes * 60 ≤ t)
      | none => false

/-- `_is_automated_pattern`, first regex `[a-f0-9]{16,}\.`: a run of at
least 16 lowercase-hex characters immediately followed by a dot.  `run`
is the length of the current hex run. -/
def hexRunPattern : List Char → Nat → Bool
  | [], _ => false
  | c :: rest, run =>
    if c == '.' then run ≥ 16 || hexRunPattern rest 0
    else if ('a' ≤ c && c ≤ 'f') || c.isDigit then hexRunPattern rest (run + 1)
    else hexRunPattern rest 0

/-- A regex word character (`\w`): letter, digit or underscore. -/
def isWordChar (c : Char) : Bool := c.isAlphanum || c == '_'

/-- `_is_automated_pattern`, second regex `\d+\.[a-z]+\.\w+$`, matched on
the reversed domain: a nonempty trailing `\w` run, a dot, a nonempty
`[a-z]` run, a dot, then a digit.  Since neither `\w` nor `[a-z]` can
contain a dot, the match (when it exists) is this exact decomposition. -/
def numberedSubdomainRev : List Char → Bool
  | c :: rest => isWordChar c && numberedSubdomainRevW rest
  | [] => false
where
  /-- inside the trailing `\w+` run -/
  numberedSubdomainRevW : List Char → Bool
    | c :: rest =>
      if c == '.' then numberedSubdomainRevA rest
      else isWordChar c && numberedSubdomainRevW rest
    | [] => false
  /-- expecting the first `[a-z]` before the final dot -/
  numberedSubdomainRevA : List Char → Bool
    | c :: rest => c.isLower && numberedSubdomainRevB rest
    | [] => false
  /-- inside the `[a-z]+` run -/
  numberedSubdomainRevB : List Char → Bool
    | c :: rest =>
      if c == '.' then (match rest with | d :: _ => d.isDigit | [] => false)
      else c.isLower && numberedSubdomainRevB rest
    | [] => false

/-- `\d+\.` after the head of the list (helper for the third regex):
at least one digit followed by a dot. -/
def digitsThenDot : List Char → Bool
  | c :: rest => c.isDigit && digitsThenDotGo rest
  | [] => false
where
  digitsThenDotGo : List Char → Bool
    | c :: rest => if c == '.' then true else c.isDigit && digitsThenDotGo rest
    | [] => false

/-- `_is_automated_pattern`, third regex `v\d+\.|version\d+\.`. -/
def versionPattern : List Char → Bool
  | [] => false
  | c :: rest =>
    (c == 'v' && (digitsThenDot rest ||
      (startsWithList "ersion".data rest && digitsThenDot (rest.drop 6)))) ||
    versionPattern rest

/-- `_is_automated_pattern`: any of the three heuristics. -/
def is_automated_pattern (domain : String) : Bool :=
  hexRunPattern domain.data 0 || numberedSubdomainRev domain.data.reverse ||
    versionPattern domain.data

/-- `_is_background_query`: background-domain substring, low query-type
weight, or automated pattern. -/
def is_background_query (log : LogEntry) : Bool :=
  let domain := pyLower (log.question_name.getD "")
  let query_type := log.question_type.getD ""
  BACKGROUND_DOMAINS.any (fun bg => strHasSub domain bg) ||
    decide (queryTypeWeight query_type ≤ 0.4) ||
    is_automated_pattern domain

/-- `_calculate_background_score`: user-query ratio × 100, capped. -/
def calculate_background_score (device_logs : List LogEntry) : ℚ :=
  if device_logs = [] then 0
  else
    let total_queries := device_logs.length
    let user_queries := (device_logs.filter (fun l => !is_background_query l)).length
    let user_ratio : ℚ :=
      if total_queries > 0 then (user_queries : ℚ) / total_queries else 0
    min (user_ratio * 100) 100

/-- `_calculate_protocol_score`: mean protocol weight × 100, capped. -/
def calculate_protocol_score (device_logs : List LogEntry) : ℚ :=
  if device_logs = [] then 0
  else
    let protocol_scores :=
      device_logs.map fun l => protocolWeight (pyUpper (l.protocol.getD "UDP"))
    min (protocol_scores.sum / protocol_scores.length * 100) 100

/-- `_calculate_diversity_score`: average of domain diversity (10 domains
for full marks) and query-type diversity (5 types), × 100, capped. -/
def calculate_diversity_score (device_logs : List LogEntry) : ℚ :=
  if device_logs = [] then 0
  else
    let domains :=
      (device_logs.filterMap fun l =>
        let d := pyLower (l.question_name.getD "")
        if d ≠ "" then some d else none).dedup
    let query_types :=
      (device_logs.filterMap fun l =>
        let t := l.question_type.getD ""
        if t ≠ "" then some t else none).dedup
    let domain_diversity : ℚ := min ((domains.length : ℚ) / 10) 1
    let type_diversity : ℚ := min ((query_types.length : ℚ) / 5) 1
    min ((domain_diversity + type_diversity) / 2 * 100) 100

/-- `_get_time_span_minutes`: span of the parseable timestamps in minutes,
at least 1; 1 when fewer than two timestamps parse. -/
def get_time_span_minutes (device_logs : List LogEntry) : ℚ :=
  let timestamps := device_logs.filterMap (·.timestamp)
  if timestamps.length < 2 then 1
  else
    let sorted := timestamps.insertionSort (· ≤ ·)
    max ((sorted.getLastD 0 - sorted.headD 0) / 60) 1

/-- `_calculate_frequency_score`: 0.5–5 queries/minute is the interactive
band (100); below ramps linearly; above decays, floored at 10. -/
def calculate_frequency_score (device_logs : List LogEntry) : ℚ :=
  if device_logs = [] then 0
  else
    let total_queries := device_logs.length
    let time_span := get_time_span_minutes device_logs
    if time_span ≤ 0 then 50
    else
      let queries_per_minute : ℚ := (total_queries : ℚ) / time_span
      let score : ℚ :=
        if 0.5 ≤ queries_per_minute ∧ queries_per_minute ≤ 5 then 100
        else if queries_per_minute < 0.5 then queries_per_minute * 200
        else max (100 - (queries_per_minute - 5) * 10) 10
      min (max score 0) 100

/-- Consecutive differences of a list (`timestamps[i] - timestamps[i-1]`). -/
def consecutiveDiffs : List ℚ → List ℚ
  | a :: b :: rest => (b - a) :: consecutiveDiffs (b :: rest)
  | _ => []

/-- `_calculate_timing_score`: coefficient of variation of inter-arrival
intervals; `sqrtFn` stands for the float square root (`** 0.5`). -/
def calculate_timing_score (sqrtFn : ℚ → ℚ) (device_logs : List LogEntry) : ℚ :=
  if device_logs.length < 3 then 50
  else
    let timestamps := device_logs.filterMap (·.timestamp)
    if timestamps.length < 3 then 50
    else
      let sorted := timestamps.insertionSort (· ≤ ·)
      let intervals := consecutiveDiffs sorted
      if intervals = [] then 50
      else
        let avg_interval : ℚ := intervals.sum / (intervals.length : ℚ)
        let cv : ℚ :=
          if avg_interval > 0 then
            let variance : ℚ :=
              (intervals.map (fun x => (x - avg_interval) ^ 2)).sum / (intervals.length : ℚ)
            sqrtFn variance / avg_interval
          else 0
        let score : ℚ :=
          if 0.3 ≤ cv ∧ cv ≤ 2.0 then 100
          else if cv < 0.3 then cv * 333
          else max (100 - (cv - 2.0) * 50) 10
        min (max score 0) 100

/-- `_generate_analysis_summary`: four-tier label plus query count,
background percentage (`{:.0%}`) and protocol count. -/
def generate_analysis_summary (score : ℚ) (queries : ℕ) (bg_ratio : ℚ)
    (protocols : ℕ) : String :=
  let activity_level :=
    if score ≥ 75 then "High user activity"
    else if score ≥ 50 then "Moderate user activity"
    else if score ≥ 25 then "Low user activity"
    else "Mostly background traffic"
  activity_level ++ " - " ++ toString queries ++ " queries, " ++
    toString (pyRoundInt (bg_ratio * 100)) ++ "% background, " ++
    toString protocols ++ " protocols"

/-- The result dictionary of `analyze_device_activity`.  The empty-window
result has no `score_breakdown` key, hence the `Option`. -/
structure ScoreBreakdown where
  background_score : ℚ
  protocol_score : ℚ
  diversity_score : ℚ
  frequency_score : ℚ
  timing_score : ℚ
deriving DecidableEq, Repr

/-- Per-device activity assessment (the analyzer's result dictionary). -/
structure ActivityAssessment where
  activity_score : ℚ
  is_actively_used : Bool
  total_queries : ℕ
  background_ratio : ℚ
  protocol_diversity : ℕ
  query_rate : ℚ
  analysis_summary : String
  score_breakdown : Option ScoreBreakdown
deriving DecidableEq, Repr

/-- The zero assessment returned for an empty filtered log set. -/
def zeroAssessment : ActivityAssessment :=
  { activity_score := 0
    is_actively_used := false
    total_queries := 0
    background_ratio := 0
    protocol_diversity := 0
    query_rate := 0
    analysis_summary := "No DNS activity found"
    score_breakdown := none }

/-- `SmartActivityAnalyzer.analyze_device_activity`.  Parameters mirror the
analyzer's configuration (`score_threshold`, `analysis_window_minutes`)
plus the cycle's clock `now` and the square-root function. -/
def analyze_device_activity (sqrtFn : ℚ → ℚ) (score_threshold : ℚ)
    (analysis_window_minutes now : ℚ) (dns_logs : List LogEntry)
    (ip_address : String) : ActivityAssessment :=
  let device_logs := filter_device_logs analysis_window_minutes now dns_logs ip_address
  if device_logs = [] then zeroAssessment
  else
    let total_queries := device_logs.length
    let background_score := calculate_background_score device_logs
    let protocol_score := calculate_protocol_score device_logs
    let diversity_score := calculate_diversity_score device_logs
    let frequency_score := calculate_frequency_score device_logs
    let timing_score := calculate_timing_score sqrtFn device_logs
    let activity_score :=
      background_score * 0.3 + protocol_score * 0.25 + diversity_score * 0.2 +
        frequency_score * 0.15 + timing_score * 0.1
    let background_queries := (device_logs.filter is_background_query).length
    let background_ratio : ℚ :=
      if total_queries > 0 then (background_queries : ℚ) / total_queries else 0
    let protocols_used := (device_logs.map (fun l => l.protocol.getD "UDP")).dedup
    let protocol_diversity := protocols_used.length
    let time_span := get_time_span_minutes device_logs
    let query_rate := (total_queries : ℚ) / max time_span 1
    let analysis_summary :=
      generate_analysis_summary activity_score total_queries background_ratio
        protocol_diversity
    let is_actively_used := decide (score_threshold ≤ activity_score)
    { activity_score := pyRound 1 activity_score
      is_actively_used := is_actively_used
      total_queries := total_queries
      background_ratio := pyRound 3 background_ratio
      protocol_diversity := protocol_diversity
      query_rate := pyRound 2 query_rate
      analysis_summary := analysis_summary
      score_breakdown := some
        { background_score := pyRound 1 background_score
          protocol_score := pyRound 1 protocol_score
          diversity_score := pyRound 1 diversity_score
          frequency_score := pyRound 1 frequency_score
          timing_score := pyRound 1 timing_score } }

/-- The zero assessment with an error note, produced when analyzing one
IP raises (`analyze_batch_device_activity`'s `except` branch). -/
def errorAssessment (e : String) : ActivityAssessment :=
  { activity_score := 0
    is_actively_used := false
    total_queries := 0
    background_ratio := 0
    protocol_diversity := 0
    query_rate := 0
    analysis_summary := "Analysis error: " ++ e
    score_breakdown := none }

/-- One result entry of `analyze_batch_device_activity`: the analysis when
the per-IP call succeeds, the zero assessment with an error note when it
raises. -/
def batchEntry (analyzeFn : String → Except String ActivityAssessment)
    (ip_address : String) : ActivityAssessment :=
  match analyzeFn ip_address with
  | .ok analysis => analysis
  | .error e => errorAssessment e

/-- `analyze_batch_device_activity`.  The per-IP analyzer call is passed in
as a fallible function (`Except` models a raised exception); the result
dictionary is modelled as a map from IP to its entry, last write wins.
Instantiating `analyzeFn ip := .ok (analyze_device_activity …)` recovers
the non-raising case. -/
def analyze_batch_device_activity
    (analyzeFn : String → Except String ActivityAssessment)
    (device_ips : List String) : String → Option ActivityAssessment :=
  device_ips.foldl
    (fun results ip_address => fun k =>
      if k = ip_address then some (batchEntry analyzeFn ip_address)
      else results k)
    (fun _ => none)

/-! ## `device_tracker.TechnitiumDHCPCoordinator` -/

/-- One raw lease of the DHCP API response.  `Option` models
`lease.get(...)` for keys that may be missing (`getD ""` where the code
supplies a default). -/
structure RawLease where
  address : Option String
  hardwareAddress : Option String
  hostName : Option String
  clientIdentifier : Option String
  leaseExpires : Option String
  leaseObtained : Option String
  scope : Option String
  type : Option String
deriving DecidableEq, Repr

/-- One processed lease of `_async_update_data`.  `last_seen` carries the
parsed last-seen timestamp (seconds), `none` before the log pass or when
no log entry was found. -/
structure ProcessedLease where
  ip_address : String
  mac_address : String
  hostname : String
  client_id : String
  lease_expires : Option String
  lease_obtained : Option String
  scope : String
  type : Option String
  last_seen : Option ℚ
  is_stale : Bool
  minutes_since_seen : ℤ
deriving DecidableEq, Repr

/-- The lease-processing loop body of `_async_update_data`: skip a lease
with no IP or no MAC, accept every lease type (Dynamic, Reserved, empty
and unknown types are all included), apply the IP filter, and emit the
processed record with default presence fields
(`last_seen = None`, `is_stale = False`, `minutes_since_seen = 0`). -/
def processRawLease (ip_filter_mode ip_ranges : String) (lease : RawLease) :
    Option ProcessedLease :=
  let ip_address := lease.address.getD ""
  let mac_address := lease.hardwareAddress.getD ""
  if ip_address = "" then none
  else if mac_address = "" then none
  else if ¬should_track_ip ip_address ip_filter_mode ip_ranges then none
  else some
    { ip_address := ip_address
      mac_address := pyUpper mac_address
      hostname := lease.hostName.getD ""
      client_id := lease.clientIdentifier.getD ""
      lease_expires := lease.leaseExpires
      lease_obtained := lease.leaseObtained
      scope := lease.scope.getD ""
      type := lease.type
      last_seen := none
      is_stale := false
      minutes_since_seen := 0 }

/-- The lease list produced by `_async_update_data` before the DNS-log
pass. -/
def process_leases (ip_filter_mode ip_ranges : String)
    (leases : List RawLease) : List ProcessedLease :=
  leases.filterMap (processRawLease ip_filter_mode ip_ranges)

/-- Python `int()` on a rational: truncation toward zero. -/
def intTrunc (q : ℚ) : ℤ := if 0 ≤ q then ⌊q⌋ else -⌊-q⌋

/-- The per-lease update of `_get_last_seen_for_devices` once the batch
query returned: a found timestamp sets `last_seen` and the staleness rule
`minutes_since_seen > stale_threshold`; no entry marks the device stale
with the 9999 sentinel. -/
def updateLeaseLastSeen (last_seen_times : String → Option ℚ)
    (now stale_threshold_minutes : ℚ) (lease : ProcessedLease) : ProcessedLease :=
  match last_seen_times lease.ip_address with
  | some t =>
    let minutes_since_seen := (now - t) / 60
    { lease with
        last_seen := some t
        is_stale := decide (stale_threshold_minutes < minutes_since_seen)
        minutes_since_seen := intTrunc minutes_since_seen }
  | none =>
    { lease with last_seen := none, is_stale := true, minutes_since_seen := 9999 }

/-- `_get_last_seen_for_devices`.  `probe_available` is the result of the
`test_dns_logs_api` capability probe; `fetch` is the batch last-seen query,
with `Except` modelling a raised exception (whose handler resets every
lease to not-stale).  When log tracking is off, there are no IPs, or the
probe reports unavailable, the leases pass through unchanged. -/
def get_last_seen_for_devices (log_tracking : Bool) (probe_available : Bool)
    (fetch : Except String (String → Option ℚ)) (now stale_threshold_minutes : ℚ)
    (processed_leases : List ProcessedLease) : List ProcessedLease :=
  if !log_tracking then processed_leases
  else
    let ip_addresses := (processed_leases.map (·.ip_address)).filter (· ≠ "")
    if ip_addresses = [] then processed_leases
    else if !probe_available then processed_leases
    else
      match fetch with
      | .error _ =>
        processed_leases.map fun l =>
          { l with last_seen := none, is_stale := false, minutes_since_seen := 0 }
      | .ok last_seen_times =>
        processed_leases.map (updateLeaseLastSeen last_seen_times now stale_threshold_minutes)

/-! ## `api.get_last_seen_for_multiple_ips` — dynamic fetch limit -/

/-- The dynamic DNS-log fetch limit: base 2000 entries plus 200 per
multiplier step `max(1, n // 10)`, capped at 10000. -/
def dynamic_limit (n : ℕ) : ℕ :=
  let base_limit := 2000
  let device_multiplier := max 1 (n / 10)
  min 10000 (base_limit + device_multiplier * 200)

/-! ## `sensor.DynamicSensorManager._handle_coordinator_update` -/

/-- State of the reconciliation loop: the current device set, the new
devices collected so far, and the known-device set (which the loop itself
extends). -/
def reconcileStep (st : Finset String × List ProcessedLease × Finset String)
    (lease : ProcessedLease) : Finset String × List ProcessedLease × Finset String :=
  let mac_address := lease.mac_address
  if mac_address = "" then st
  else
    let normalized_mac := normalize_mac_address mac_address
    let current_devices := insert normalized_mac st.1
    if normalized_mac ∈ st.2.2 then (current_devices, st.2.1, st.2.2)
    else (current_devices, st.2.1 ++ [lease], insert normalized_mac st.2.2)

/-- The set of normalized MAC identities of a lease list (the
`current_devices` set the reconciliation loop accumulates). -/
def macsOf (data : List ProcessedLease) : Finset String :=
  data.foldl
    (fun s l =>
      if l.mac_address = "" then s
      else insert (normalize_mac_address l.mac_address) s) ∅

/-- `_handle_coordinator_update` on one coordinator update: returns the
newly discovered devices, the removed-device set, and the retained
known-device set after the cycle (the code ends with
`known_devices = current_devices.copy()`). -/
def handle_coordinator_update (known_devices : Finset String)
    (data : List ProcessedLease) :
    List ProcessedLease × Finset String × Finset String :=
  let st := data.foldl reconcileStep (∅, [], known_devices)
  let removed_devices := st.2.2 \ st.1
  (st.2.1, removed_devices, st.1)

/-! ## Spec-side predicate for the canonical MAC form -/

/-- The spec's "canonical colon-separated uppercase hex, 6 octets" form,
written from the claim's words (used to compare the coordinator's output
against the spec). -/
def canonicalMacForm (s : String) : Bool :=
  let l := s.data
  l.length = 17 &&
    (List.range 17).all fun i =>
      if i % 3 = 2 then l.getD i ' ' == ':'
      else (l.getD i ' ').isDigit || ('A' ≤ l.getD i ' ' && l.getD i ' ' ≤ 'F')

/-! ## Concrete example inputs (used by witnesses and counterexamples) -/

/-- A raw lease whose `hardwareAddress` is 12 bare hex characters. -/
def exampleRawLease : RawLease :=
  { address := some "192.168.1.2"
    hardwareAddress := some "aabbccddeeff"
    hostName := none
    clientIdentifier := none
    leaseExpires := none
    leaseObtained := none
    scope := none
    type := none }

/-- The processed lease the coordinator emits for `exampleRawLease` with
IP filtering disabled. -/
def exampleProcessedLease : ProcessedLease :=
  { ip_address := "192.168.1.2"
    mac_address := "AABBCCDDEEFF"
    hostname := ""
    client_id := ""
    lease_expires := none
    lease_obtained := none
    scope := ""
    type := none
    last_seen := none
    is_stale := false
    minutes_since_seen := 0 }

/-- A log entry of the example device inside every reasonable window. -/
def exampleLogEntry : LogEntry :=
  { clientIpAddress := some "10.0.0.5"
    timestamp := some 0
    protocol := some "TCP"
    question_name := some "example.org"
    question_type := some "A" }

/-- A log entry of a different client. -/
def otherClientLogEntry : LogEntry :=
  { clientIpAddress := some "10.0.0.9"
    timestamp := some 0
    protocol := some "UDP"
    question_name := some "example.net"
    question_type := some "A" }

/-- A log entry of the example device whose timestamp failed to parse. -/
def unparsedTimestampLogEntry : LogEntry :=
  { clientIpAddress := some "10.0.0.5"
    timestamp := none
    protocol := some "UDP"
    question_name := some "example.com"
    question_type := some "A" }

/-- A log entry of the example device far outside the analysis window. -/
def staleLogEntry : LogEntry :=
  { clientIpAddress := some "10.0.0.5"
    timestamp := some (-100000)
    protocol := some "UDP"
    question_name := some "example.com"
    question_type := some "A" }

/-- A batch analyzer stub that raises on one IP and succeeds on the rest. -/
def exampleBatchAnalyzeFn : String → Except String ActivityAssessment :=
  fun ip => if ip = "10.0.0.2" then .error "boom" else .ok zeroAssessment

/-! ## Character-level lemmas -/

theorem toNat_ofNatAux (n : Nat) (h : n.isValidChar) :
    (Char.ofNatAux n h).toNat = n := rfl

theorem toUpper_toUpper (c : Char) : c.toUpper.toUpper = c.toUpper := by
  unfold Char.toUpper
  simp only []
  by_cases h : c.toNat ≥ 97 ∧ c.toNat ≤ 122
  · rw [if_pos h, if_neg]
    intro h2
    obtain ⟨h1, _⟩ := h
    obtain ⟨h3, h4⟩ := h2
    rw [Char.ofNat, dif_pos (Or.inl (by omega : c.toNat - 32 < 55296))] at h3 h4
    rw [toNat_ofNatAux] at h3 h4
    omega
  · rw [if_neg h, if_neg h]

theorem pyUpper_pyUpper (s : String) : pyUpper (pyUpper s) = pyUpper s := by
  unfold pyUpper
  apply congrArg String.mk
  show (s.data.map Char.toUpper).map Char.toUpper = _
  rw [List.map_map]
  exact List.map_congr_left fun c _ => toUpper_toUpper c

theorem dashToColon_dashToColon (c : Char) :
    dashToColon (dashToColon c) = dashToColon c := by
  unfold dashToColon
  by_cases h : c == '-'
  · rw [if_pos h]; rfl
  · rw [if_neg h, if_neg h]

theorem toUpper_dashToColon_toUpper (c : Char) :
    (dashToColon c.toUpper).toUpper = dashToColon c.toUpper := by
  unfold dashToColon
  by_cases h : c.toUpper == '-'
  · rw [if_pos h]; decide
  · rw [if_neg h]; exact toUpper_toUpper c

theorem mk_cons_ne_empty (c : Char) (l : List Char) : String.mk (c :: l) ≠ "" := by
  intro h
  have := congrArg String.data h
  simp at this

/-! ## C10 — empty ranges string tracks everything -/

/-- C10: for every IP address and every filter mode, `should_track_ip`
returns `True` when the configured IP-ranges string is empty; an include
filter with an empty range list therefore tracks every device. -/
theorem should_track_ip_empty_ranges (ip_address filter_mode : String) :
    should_track_ip ip_address filter_mode "" = true := by
  unfold should_track_ip
  rw [if_pos (Or.inr rfl)]

/-! ## C8 — dynamic DNS-log fetch limit (corrected) -/

/-- C8 (counterexample): a cycle with fewer than 10 devices does not use a
limit of 2000 — with 5 devices the computed limit is 2200. -/
theorem dynamic_limit_small_counterexample : dynamic_limit 5 ≠ 2000 := by decide

/-- C8 (amended): the fetch limit is 2000 plus 200 per multiplier step
`max(1, n // 10)`, capped at 10000; a cycle with fewer than 10 devices
uses 2200, and no cycle ever requests more than 10000 entries. -/
theorem dynamic_limit_bounds (n m : ℕ) (h : n < 10) :
    dynamic_limit n = 2200 ∧ dynamic_limit m ≤ 10000 := by
  constructor
  · unfold dynamic_limit
    rw [Nat.div_eq_of_lt h]
    rfl
  · unfold dynamic_limit
    exact Nat.min_le_left _ _

theorem dynamic_limit_bounds_witness :
    dynamic_limit 5 = 2200 ∧ dynamic_limit 400 ≤ 10000 :=
  dynamic_limit_bounds 5 400 (by decide)

/-! ## C3 — include/exclude complement, disabled tracks everything -/

/-- C3: for a valid IPv4 address and a non-empty ranges specification,
`include` is the exact boolean complement of `exclude`; `disabled` tracks
everything; with ranges `"192.168.1.100,192.168.1.101"`, include tracks
`192.168.1.100` and rejects `192.168.1.50`. -/
theorem should_track_ip_modes (a s : String) (h1 : parseIPv4 a ≠ none)
    (h2 : s ≠ "") :
    should_track_ip a "include" s = !should_track_ip a "exclude" s ∧
    (∀ a' s' : String, should_track_ip a' "disabled" s' = true) ∧
    should_track_ip "192.168.1.100" "include" "192.168.1.100,192.168.1.101" = true ∧
    should_track_ip "192.168.1.50" "include" "192.168.1.100,192.168.1.101" = false := by
  refine ⟨?_, ?_, by decide, by decide⟩
  · have hmode1 : ¬("include" = "disabled" ∨ s = "") := by
      rintro (h | h)
      · exact absurd h (by decide)
      · exact h2 h
    have hmode2 : ¬("exclude" = "disabled" ∨ s = "") := by
      rintro (h | h)
      · exact absurd h (by decide)
      · exact h2 h
    obtain ⟨v, hv⟩ := Option.ne_none_iff_exists'.mp h1
    unfold should_track_ip
    rw [if_neg hmode1, if_neg hmode2, hv]
    show (if "include" = "include" then _ else _) = !(if "exclude" = "include" then _ else _)
    rw [if_pos rfl, if_neg (by decide), if_pos rfl, Bool.not_not]
  · intro a' s'
    unfold should_track_ip
    rw [if_pos (Or.inl rfl)]

theorem should_track_ip_modes_witness :
    parseIPv4 "192.168.1.100" ≠ none ∧
    should_track_ip "192.168.1.100" "include" "192.168.1.100,192.168.1.101" =
      !should_track_ip "192.168.1.100" "exclude" "192.168.1.100,192.168.1.101" :=
  ⟨by decide,
    (should_track_ip_modes "192.168.1.100" "192.168.1.100,192.168.1.101"
      (by decide) (by decide)).1⟩

/-! ## C4 — MAC normalization idempotence (corrected) -/

theorem data_pyUpper (s : String) : (pyUpper s).data = s.data.map Char.toUpper := rfl

theorem mk_ne_empty (l : List Char) (h : l ≠ []) : String.mk l ≠ "" := by
  cases l with
  | nil => exact absurd rfl h
  | cons c cs => exact mk_cons_ne_empty c cs

theorem normalize_join12_fixed (l : List Char) (hl : l.length = 12)
    (hnd : ¬ '-' ∈ l) (hfix : ∀ c ∈ l, c.toUpper = c) :
    normalize_mac_address (join12 l) = join12 l := by
  rcases l with _ | ⟨a, l⟩; · simp at hl
  rcases l with _ | ⟨b, l⟩; · simp at hl
  rcases l with _ | ⟨c, l⟩; · simp at hl
  rcases l with _ | ⟨d, l⟩; · simp at hl
  rcases l with _ | ⟨e, l⟩; · simp at hl
  rcases l with _ | ⟨f, l⟩; · simp at hl
  rcases l with _ | ⟨g, l⟩; · simp at hl
  rcases l with _ | ⟨h, l⟩; · simp at hl
  rcases l with _ | ⟨i, l⟩; · simp at hl
  rcases l with _ | ⟨j, l⟩; · simp at hl
  rcases l with _ | ⟨k, l⟩; · simp at hl
  rcases l with _ | ⟨m, l⟩; · simp at hl
  rcases l with _ | ⟨x, l⟩
  swap; · simp at hl
  simp only [List.mem_cons, not_or] at hnd
  obtain ⟨ha, hb, hc, hd, he, hf, hg, hh, hi, hj, hk, hm, -⟩ := hnd
  have fixa := hfix a (by simp)
  have fixb := hfix b (by simp)
  have fixc := hfix c (by simp)
  have fixd := hfix d (by simp)
  have fixe := hfix e (by simp)
  have fixf := hfix f (by simp)
  have fixg := hfix g (by simp)
  have fixh := hfix h (by simp)
  have fixi := hfix i (by simp)
  have fixj := hfix j (by simp)
  have fixk := hfix k (by simp)
  have fixm := hfix m (by simp)
  have hcolon : Char.toUpper ':' = ':' := by decide
  have hdc : dashToColon ':' = ':' := by decide
  unfold normalize_mac_address
  rw [if_neg (by simp [join12, mk_cons_ne_empty])]
  simp only [join12, data_pyUpper, List.map, fixa, fixb, fixc, fixd, fixe, fixf,
    fixg, fixh, fixi, fixj, fixk, fixm, hcolon]
  rw [if_neg (by simp), if_pos (by simp)]
  have mkdc : ∀ x : Char, ¬ '-' = x → dashToColon x = x := by
    intro x hx
    unfold dashToColon
    rw [if_neg (by simp [beq_iff_eq]; exact fun hh2 => hx hh2.symm)]
  simp only [mkdc a ha, mkdc b hb, mkdc c hc, mkdc d hd, mkdc e he, mkdc f hf,
    mkdc g hg, mkdc h hh, mkdc i hi, mkdc j hj, mkdc k hk, mkdc m hm, hdc]

theorem normalize_dashmap_fixed (s : String)
    (h17 : (pyUpper s).data.length = 17) :
    normalize_mac_address ⟨(pyUpper s).data.map dashToColon⟩ =
      ⟨(pyUpper s).data.map dashToColon⟩ := by
  have hne : ((pyUpper s).data.map dashToColon) ≠ [] := by
    intro hnil
    have := congrArg List.length hnil
    simp [h17] at this
  have hupfix : pyUpper ⟨(pyUpper s).data.map dashToColon⟩ =
      ⟨(pyUpper s).data.map dashToColon⟩ := by
    apply congrArg String.mk
    show ((pyUpper s).data.map dashToColon).map Char.toUpper = _
    rw [data_pyUpper]
    simp only [List.map_map]
    exact List.map_congr_left fun c _ => by
      simp only [Function.comp]
      exact toUpper_dashToColon_toUpper c
  unfold normalize_mac_address
  rw [if_neg (mk_ne_empty _ hne), hupfix]
  have hlen : ((pyUpper s).data.map dashToColon).length = 17 := by simp [h17]
  rw [if_neg (by simp [hlen]), if_pos hlen]
  apply congrArg String.mk
  show ((pyUpper s).data.map dashToColon).map dashToColon = _
  simp only [List.map_map]
  exact List.map_congr_left fun c _ => by
    simp only [Function.comp]
    exact dashToColon_dashToColon c

theorem normalize_mac_idempotent_core (mac : String)
    (h : ¬((pyUpper mac).data.length = 12 ∧ '-' ∈ (pyUpper mac).data)) :
    normalize_mac_address (normalize_mac_address mac) = normalize_mac_address mac := by
  by_cases hm : mac = ""
  · subst hm; rfl
  · have hdne : mac.data ≠ [] := by
      intro hnil
      exact hm (String.ext hnil)
    by_cases h12 : (pyUpper mac).data.length = 12
    · have houter : normalize_mac_address mac = join12 (pyUpper mac).data := by
        unfold normalize_mac_address
        rw [if_neg hm, if_pos h12]
      rw [houter]
      exact normalize_join12_fixed _ h12 (fun hd => h ⟨h12, hd⟩) (by
        intro c hc
        rw [data_pyUpper] at hc
        obtain ⟨y, _, rfl⟩ := List.mem_map.mp hc
        exact toUpper_toUpper y)
    · by_cases h17 : (pyUpper mac).data.length = 17
      · have houter : normalize_mac_address mac = ⟨(pyUpper mac).data.map dashToColon⟩ := by
          unfold normalize_mac_address
          rw [if_neg hm, if_neg h12, if_pos h17]
        rw [houter]
        exact normalize_dashmap_fixed mac h17
      · have houter : normalize_mac_address mac = pyUpper mac := by
          unfold normalize_mac_address
          rw [if_neg hm, if_neg h12, if_neg h17]
        rw [houter]
        have hne : pyUpper mac ≠ "" := by
          apply mk_ne_empty
          simp [data_pyUpper]
          exact hdne
        unfold normalize_mac_address
        rw [if_neg hne, pyUpper_pyUpper, if_neg h12, if_neg h17]

/-- C4 (counterexample): `normalize_mac_address` is not idempotent for
every input string — on the 12-character input `"abcdefghijk-"` the first
pass yields `"AB:CD:EF:GH:IJ:K-"` and the second pass changes it to
`"AB:CD:EF:GH:IJ:K:"`. -/
theorem normalize_mac_not_idempotent :
    normalize_mac_address (normalize_mac_address "abcdefghijk-") ≠
      normalize_mac_address "abcdefghijk-" := by decide

/-- C4 (amended): `normalize_mac_address` is idempotent for every input
string whose uppercased form is not a 12-character string containing a
dash (in particular for all well-formed MAC inputs), and is
format-invariant on the three common formats, which all normalize to
`"AA:BB:CC:DD:EE:FF"`. -/
theorem normalize_mac_idempotent_amended (mac : String)
    (h : ¬((pyUpper mac).data.length = 12 ∧ '-' ∈ (pyUpper mac).data)) :
    normalize_mac_address (normalize_mac_address mac) = normalize_mac_address mac ∧
    normalize_mac_address "aa-bb-cc-dd-ee-ff" = "AA:BB:CC:DD:EE:FF" ∧
    normalize_mac_address "AABBCCDDEEFF" = "AA:BB:CC:DD:EE:FF" ∧
    normalize_mac_address "aa:bb:cc:dd:ee:ff" = "AA:BB:CC:DD:EE:FF" :=
  ⟨normalize_mac_idempotent_core mac h, by decide, by decide, by decide⟩

theorem normalize_mac_idempotent_amended_witness :
    ¬((pyUpper "aa:bb:cc:dd:ee:ff").data.length = 12 ∧
        '-' ∈ (pyUpper "aa:bb:cc:dd:ee:ff").data) ∧
    normalize_mac_address (normalize_mac_address "aa:bb:cc:dd:ee:ff") =
      normalize_mac_address "aa:bb:cc:dd:ee:ff" :=
  ⟨by decide, (normalize_mac_idempotent_amended "aa:bb:cc:dd:ee:ff" (by decide)).1⟩

/-! ## C5 — the coordinator's emitted MAC form (corrected) -/

/-- C5 (counterexample): the DHCP coordinator's update cycle does not
reinsert colons — a raw `hardwareAddress` of 12 hex characters is emitted
as `"AABBCCDDEEFF"`, which is not the canonical colon-separated
uppercase six-octet form. -/
theorem processed_mac_not_canonical :
    (process_leases "disabled" "" [exampleRawLease]).map
        (fun p => p.mac_address) = ["AABBCCDDEEFF"] ∧
    canonicalMacForm "AABBCCDDEEFF" = false := by decide

/-- C5 (amended): every lease record emitted by the coordinator's
processing loop carries `mac_address` equal to the raw `hardwareAddress`
uppercased, separators preserved; canonical colon reinsertion is not
performed at this stage (`normalize_mac_address` is applied downstream in
the sensor layer). -/
theorem processed_mac_is_raw_upper (mode ranges : String) (leases : List RawLease)
    (p : ProcessedLease) (hp : p ∈ process_leases mode ranges leases) :
    ∃ l ∈ leases, p.mac_address = pyUpper (l.hardwareAddress.getD "") := by
  unfold process_leases at hp
  obtain ⟨raw, hraw, hf⟩ := List.mem_filterMap.mp hp
  refine ⟨raw, hraw, ?_⟩
  simp only [processRawLease] at hf
  split_ifs at hf
  cases hf
  rfl

theorem processed_mac_is_raw_upper_witness :
    exampleProcessedLease ∈ process_leases "disabled" "" [exampleRawLease] ∧
    ∃ l ∈ [exampleRawLease],
      exampleProcessedLease.mac_address = pyUpper (l.hardwareAddress.getD "") :=
  ⟨by decide, processed_mac_is_raw_upper "disabled" "" _ _ (by decide)⟩

/-! ## C2 — empty filtered window yields the zero assessment -/

/-- C2: when no log entry both belongs to the target IP and carries a
parseable timestamp inside the analysis window,
`analyze_device_activity` returns `activity_score = 0`,
`is_actively_used = False`, `total_queries = 0` and the summary
`"No DNS activity found"`. -/
theorem analyze_no_activity (sqrtFn : ℚ → ℚ) (th w now : ℚ)
    (logs : List LogEntry) (ip : String)
    (h : ∀ e ∈ logs, e.clientIpAddress = some ip →
      match e.timestamp with
      | none => True
      | some t => t < now - w * 60) :
    (analyze_device_activity sqrtFn th w now logs ip).activity_score = 0 ∧
    (analyze_device_activity sqrtFn th w now logs ip).is_actively_used = false ∧
    (analyze_device_activity sqrtFn th w now logs ip).total_queries = 0 ∧
    (analyze_device_activity sqrtFn th w now logs ip).analysis_summary =
      "No DNS activity found" := by
  have hfil : filter_device_logs w now logs ip = [] := by
    unfold filter_device_logs
    rw [List.filter_eq_nil_iff]
    intro e he hcond
    rw [Bool.and_eq_true] at hcond
    obtain ⟨h1, h2⟩ := hcond
    have h1' : e.clientIpAddress = some ip := by
      simpa [beq_iff_eq] using h1
    have hw := h e he h1'
    cases hts : e.timestamp with
    | none => rw [hts] at h2; simp at h2
    | some t =>
      rw [hts] at h2 hw
      rw [decide_eq_true_iff] at h2
      simp only [] at hw
      linarith
  have hz : analyze_device_activity sqrtFn th w now logs ip = zeroAssessment := by
    unfold analyze_device_activity
    rw [hfil]
    simp
  rw [hz]
  exact ⟨rfl, rfl, rfl, rfl⟩

theorem analyze_no_activity_witness :
    (∀ e ∈ [otherClientLogEntry, unparsedTimestampLogEntry, staleLogEntry],
      e.clientIpAddress = some "10.0.0.5" →
      match e.timestamp with
      | none => True
      | some t => t < (7300 : ℚ) - 120 * 60) ∧
    (analyze_device_activity (fun q => q) 25 120 7300
        [otherClientLogEntry, unparsedTimestampLogEntry, staleLogEntry]
        "10.0.0.5").activity_score = 0 ∧
    (analyze_device_activity (fun q => q) 25 120 7300
        [otherClientLogEntry, unparsedTimestampLogEntry, staleLogEntry]
        "10.0.0.5").analysis_summary = "No DNS activity found" := by
  have hh : ∀ e ∈ [otherClientLogEntry, unparsedTimestampLogEntry, staleLogEntry],
      e.clientIpAddress = some "10.0.0.5" →
      match e.timestamp with
      | none => True
      | some t => t < (7300 : ℚ) - 120 * 60 := by
    intro e he
    fin_cases he
    · intro hcl
      simp_all [otherClientLogEntry]
    · intro hcl
      simp [unparsedTimestampLogEntry]
    · intro hcl
      simp only [staleLogEntry]
      norm_num
  have hres := analyze_no_activity (fun q => q) 25 120 7300
    [otherClientLogEntry, unparsedTimestampLogEntry, staleLogEntry] "10.0.0.5" hh
  exact ⟨hh, hres.1, hres.2.2.2⟩

/-! ## C1 — composite score formula and threshold comparison -/

/-- C1: for every non-empty filtered log set the returned
`activity_score` equals `0.30·background + 0.25·protocol +
0.20·diversity + 0.15·frequency + 0.10·timing` rounded to one decimal,
and `is_actively_used` holds exactly when the (unrounded) composite score
reaches the configured threshold (default 25). -/
theorem analyze_composite_formula (sqrtFn : ℚ → ℚ) (th w now : ℚ)
    (logs : List LogEntry) (ip : String)
    (h : filter_device_logs w now logs ip ≠ []) :
    (analyze_device_activity sqrtFn th w now logs ip).activity_score =
      pyRound 1 (0.30 * calculate_background_score (filter_device_logs w now logs ip) +
        0.25 * calculate_protocol_score (filter_device_logs w now logs ip) +
        0.20 * calculate_diversity_score (filter_device_logs w now logs ip) +
        0.15 * calculate_frequency_score (filter_device_logs w now logs ip) +
        0.10 * calculate_timing_score sqrtFn (filter_device_logs w now logs ip)) ∧
    ((analyze_device_activity sqrtFn th w now logs ip).is_actively_used = true ↔
      th ≤ 0.30 * calculate_background_score (filter_device_logs w now logs ip) +
        0.25 * calculate_protocol_score (filter_device_logs w now logs ip) +
        0.20 * calculate_diversity_score (filter_device_logs w now logs ip) +
        0.15 * calculate_frequency_score (filter_device_logs w now logs ip) +
        0.10 * calculate_timing_score sqrtFn (filter_device_logs w now logs ip)) := by
  have hs : calculate_background_score (filter_device_logs w now logs ip) * 0.3 +
      calculate_protocol_score (filter_device_logs w now logs ip) * 0.25 +
      calculate_diversity_score (filter_device_logs w now logs ip) * 0.2 +
      calculate_frequency_score (filter_device_logs w now logs ip) * 0.15 +
      calculate_timing_score sqrtFn (filter_device_logs w now logs ip) * 0.1 =
      0.30 * calculate_background_score (filter_device_logs w now logs ip) +
        0.25 * calculate_protocol_score (filter_device_logs w now logs ip) +
        0.20 * calculate_diversity_score (filter_device_logs w now logs ip) +
        0.15 * calculate_frequency_score (filter_device_logs w now logs ip) +
        0.10 * calculate_timing_score sqrtFn (filter_device_logs w now logs ip) := by
    ring
  constructor
  · simp only [analyze_device_activity, if_neg h]
    rw [hs]
  · simp only [analyze_device_activity, if_neg h]
    rw [hs, decide_eq_true_iff]

theorem analyze_composite_formula_witness :
    filter_device_logs 120 0 [exampleLogEntry] "10.0.0.5" ≠ [] ∧
    (analyze_device_activity (fun q => q) DEFAULT_ACTIVITY_SCORE_THRESHOLD 120 0
        [exampleLogEntry] "10.0.0.5").activity_score =
      pyRound 1 (0.30 * calculate_background_score
          (filter_device_logs 120 0 [exampleLogEntry] "10.0.0.5") +
        0.25 * calculate_protocol_score
          (filter_device_logs 120 0 [exampleLogEntry] "10.0.0.5") +
        0.20 * calculate_diversity_score
          (filter_device_logs 120 0 [exampleLogEntry] "10.0.0.5") +
        0.15 * calculate_frequency_score
          (filter_device_logs 120 0 [exampleLogEntry] "10.0.0.5") +
        0.10 * calculate_timing_score (fun q => q)
          (filter_device_logs 120 0 [exampleLogEntry] "10.0.0.5")) := by
  have hne : filter_device_logs 120 0 [exampleLogEntry] "10.0.0.5" ≠ [] := by
    simp [filter_device_logs, exampleLogEntry]
  exact ⟨hne, (analyze_composite_formula (fun q => q)
    DEFAULT_ACTIVITY_SCORE_THRESHOLD 120 0 [exampleLogEntry] "10.0.0.5" hne).1⟩

/-! ## C7 — batch analysis isolates per-IP failures -/

theorem batch_fold_lookup (f : String → Except String ActivityAssessment)
    (l : List String) (init : String → Option ActivityAssessment) (k : String) :
    (l.foldl (fun results ip_address => fun k' =>
        if k' = ip_address then some (batchEntry f ip_address) else results k') init) k =
      if k ∈ l then some (batchEntry f k) else init k := by
  induction l generalizing init with
  | nil => simp
  | cons x xs ih =>
    simp only [List.foldl_cons, ih]
    by_cases hk : k ∈ xs
    · simp [hk, List.mem_cons]
    · by_cases hkx : k = x
      · subst hkx
        simp [hk, List.mem_cons]
      · simp [hk, hkx, List.mem_cons]

/-- C7: batch analysis returns a result entry for every input IP — the
per-IP analysis when it succeeds, and the zero assessment with an
error-note summary when analyzing that IP raises — while the other IPs'
results equal analyzing them alone; the batch itself never aborts (it is
a total function). -/
theorem batch_isolated_results (analyzeFn : String → Except String ActivityAssessment)
    (device_ips : List String) (ip : String) (h : ip ∈ device_ips) :
    analyze_batch_device_activity analyzeFn device_ips ip =
      some (batchEntry analyzeFn ip) ∧
    (∀ e, analyzeFn ip = .error e → batchEntry analyzeFn ip = errorAssessment e) ∧
    (∀ a, analyzeFn ip = .ok a → batchEntry analyzeFn ip = a) := by
  refine ⟨?_, ?_, ?_⟩
  · unfold analyze_batch_device_activity
    rw [batch_fold_lookup, if_pos h]
  · intro e he
    unfold batchEntry
    rw [he]
  · intro a ha
    unfold batchEntry
    rw [ha]

theorem batch_isolated_results_witness :
    "10.0.0.2" ∈ ["10.0.0.1", "10.0.0.2"] ∧
    analyze_batch_device_activity exampleBatchAnalyzeFn ["10.0.0.1", "10.0.0.2"]
        "10.0.0.2" = some (batchEntry exampleBatchAnalyzeFn "10.0.0.2") :=
  ⟨by decide, (batch_isolated_results exampleBatchAnalyzeFn
    ["10.0.0.1", "10.0.0.2"] "10.0.0.2" (by decide)).1⟩

/-! ## C6 — unavailable log source leaves every device active -/

/-- C6: when the DNS-log availability probe reports `available = False`,
the cycle's leased devices pass through the last-seen stage unchanged —
no device is dropped — and every one of them keeps `is_stale = False`,
independent of any log data. -/
theorem probe_unavailable_passthrough (mode ranges : String) (raws : List RawLease)
    (fetch : Except String (String → Option ℚ)) (now thr : ℚ) :
    get_last_seen_for_devices true false fetch now thr (process_leases mode ranges raws) =
      process_leases mode ranges raws ∧
    ∀ p ∈ process_leases mode ranges raws, p.is_stale = false := by
  constructor
  · unfold get_last_seen_for_devices
    simp
  · intro p hp
    unfold process_leases at hp
    obtain ⟨raw, hraw, hf⟩ := List.mem_filterMap.mp hp
    simp only [processRawLease] at hf
    split_ifs at hf
    cases hf
    rfl

theorem probe_unavailable_passthrough_witness :
    get_last_seen_for_devices true false (Except.error "boom") 0 60
        (process_leases "disabled" "" [exampleRawLease]) =
      process_leases "disabled" "" [exampleRawLease] ∧
    exampleProcessedLease.is_stale = false :=
  ⟨(probe_unavailable_passthrough "disabled" "" [exampleRawLease]
      (Except.error "boom") 0 60).1,
   (probe_unavailable_passthrough "disabled" "" [exampleRawLease]
      (Except.error "boom") 0 60).2 exampleProcessedLease (by decide)⟩

/-! ## C9 — reconciliation is idempotent on an unchanged lease list -/


theorem mem_macs_foldl (data : List ProcessedLease) (s : Finset String) (x : String) :
    x ∈ data.foldl
      (fun s l =>
        if l.mac_address = "" then s
        else insert (normalize_mac_address l.mac_address) s) s ↔
      x ∈ s ∨ x ∈ macsOf data := by
  induction data generalizing s with
  | nil => simp [macsOf]
  | cons l ls ih =>
    have hmacs : x ∈ macsOf (l :: ls) ↔
        x ∈ (if l.mac_address = "" then (∅ : Finset String)
          else insert (normalize_mac_address l.mac_address) ∅) ∨ x ∈ macsOf ls := by
      show x ∈ List.foldl _ _ ls ↔ _
      exact ih _
    rw [List.foldl_cons, ih, hmacs]
    by_cases h : l.mac_address = ""
    · simp [h]
    · simp only [h, if_false]
      simp [Finset.mem_insert]
      tauto

theorem macs_foldl_union (data : List ProcessedLease) (s : Finset String) :
    data.foldl
      (fun s l =>
        if l.mac_address = "" then s
        else insert (normalize_mac_address l.mac_address) s) s = s ∪ macsOf data := by
  ext x
  rw [mem_macs_foldl, Finset.mem_union]



theorem reconcile_fold_fst (data : List ProcessedLease) (cur : Finset String)
    (new : List ProcessedLease) (kn : Finset String) :
    (data.foldl reconcileStep (cur, new, kn)).1 = cur ∪ macsOf data := by
  induction data generalizing cur new kn with
  | nil => simp [macsOf]
  | cons l ls ih =>
    have hmacs : macsOf (l :: ls) =
        (if l.mac_address = "" then (∅ : Finset String)
          else insert (normalize_mac_address l.mac_address) ∅) ∪ macsOf ls := by
      show List.foldl _ _ ls = _
      exact macs_foldl_union ls _
    rw [List.foldl_cons, hmacs]
    by_cases h : l.mac_address = ""
    · have hstep : reconcileStep (cur, new, kn) l = (cur, new, kn) := by
        simp [reconcileStep, h]
      rw [hstep, ih, if_pos h]
      simp
    · by_cases hk : normalize_mac_address l.mac_address ∈ kn
      · have hstep : reconcileStep (cur, new, kn) l =
            (insert (normalize_mac_address l.mac_address) cur, new, kn) := by
          simp [reconcileStep, h, hk]
        rw [hstep, ih, if_neg h]
        ext x
        simp
        tauto
      · have hstep : reconcileStep (cur, new, kn) l =
            (insert (normalize_mac_address l.mac_address) cur, new ++ [l],
              insert (normalize_mac_address l.mac_address) kn) := by
          simp [reconcileStep, h, hk]
        rw [hstep, ih, if_neg h]
        ext x
        simp
        tauto

theorem reconcile_fold_known (data : List ProcessedLease) (cur : Finset String)
    (new : List ProcessedLease) (kn : Finset String) (h : macsOf data ⊆ kn) :
    data.foldl reconcileStep (cur, new, kn) = (cur ∪ macsOf data, new, kn) := by
  induction data generalizing cur with
  | nil => simp [macsOf]
  | cons l ls ih =>
    have hmacs : macsOf (l :: ls) =
        (if l.mac_address = "" then (∅ : Finset String)
          else insert (normalize_mac_address l.mac_address) ∅) ∪ macsOf ls := by
      show List.foldl _ _ ls = _
      exact macs_foldl_union ls _
    have hsub : macsOf ls ⊆ kn := by
      intro x hx
      exact h (by rw [hmacs]; exact Finset.mem_union_right _ hx)
    rw [List.foldl_cons, hmacs]
    by_cases hm : l.mac_address = ""
    · have hstep : reconcileStep (cur, new, kn) l = (cur, new, kn) := by
        simp [reconcileStep, hm]
      rw [hstep, ih _ hsub, if_pos hm]
      simp
    · have hnm : normalize_mac_address l.mac_address ∈ kn := by
        apply h
        rw [hmacs, if_neg hm]
        exact Finset.mem_union_left _ (Finset.mem_insert_self _ _)
      have hstep : reconcileStep (cur, new, kn) l =
          (insert (normalize_mac_address l.mac_address) cur, new, kn) := by
        simp [reconcileStep, hm, hnm]
      rw [hstep, ih _ hsub, if_neg hm]
      have hset : insert (normalize_mac_address l.mac_address) cur ∪ macsOf ls =
          cur ∪ (insert (normalize_mac_address l.mac_address) ∅ ∪ macsOf ls) := by
        ext x
        simp
        tauto
      rw [hset]

/-- C9: feeding an identical lease list on two consecutive coordinator
updates yields no new devices and no removed devices on the second
update (`new == []` and `removed == {}`). -/
theorem reconciliation_idempotent (known : Finset String) (data : List ProcessedLease) :
    (handle_coordinator_update (handle_coordinator_update known data).2.2 data).1 = [] ∧
    (handle_coordinator_update (handle_coordinator_update known data).2.2 data).2.1 = ∅ := by
  have hk1 : (handle_coordinator_update known data).2.2 = macsOf data := by
    unfold handle_coordinator_update
    simp only []
    rw [reconcile_fold_fst]
    simp
  rw [hk1]
  unfold handle_coordinator_update
  rw [reconcile_fold_known data ∅ [] (macsOf data) (subset_refl _)]
  constructor
  · rfl
  · simp


end Technitium
